import Mathlib

/-!
Shallow embedding of `go-controller/pkg/ovn/endpoints.go` (OVN endpoints
reconciliation) and proofs about it.

The module's effectful calls to external collaborators (watch factory, load
balancer backend, gateway discovery) are modelled by an `Env` record of
oracle functions, and each controller function returns the ordered list of
load-balancer operations it issued (`Op`) together with its Go `error`
result (`Option String`, `none` = nil).
-/

namespace OvnEndpoints

/-- `kapi.EndpointAddress`: one endpoint address. -/
structure EndpointAddress where
  ip : String
deriving DecidableEq, Repr

/-- `kapi.EndpointPort`: a named port of an endpoints subset. Go's
`kapi.Protocol` is a string type, so `protocol` is a `String`. Ports are
`int32` in Go; no arithmetic is performed on them, so `Int` is used. -/
structure EndpointPort where
  name : String
  port : Int
  protocol : String
deriving DecidableEq, Repr

/-- `kapi.EndpointSubset`. -/
structure EndpointSubset where
  addresses : List EndpointAddress
  ports : List EndpointPort
deriving DecidableEq, Repr

/-- `kapi.Endpoints` (fields used by the module). -/
structure Endpoints where
  name : String
  nspace : String
  subsets : List EndpointSubset
deriving DecidableEq, Repr

/-- `lbEndpoints` from endpoints.go. -/
structure lbEndpoints where
  IPs : List String
  Port : Int
deriving DecidableEq, Repr

/-- The Go value `map[kapi.Protocol]map[string]lbEndpoints`, modelled as a
partial map from protocol strings to partial maps from port names. -/
def Tbl : Type := String → Option (String → Option lbEndpoints)

/-- Modelled from the spec: `util.ValidatePort` (not in src). The spec calls
a (protocol, port) combination structurally valid when the port is non-zero
and the protocol is one of the three known values. -/
def validatePort (protocol : String) (port : Int) : Bool :=
  (protocol == "TCP" || protocol == "UDP" || protocol == "SCTP") && port != 0

/-- The initial `protoPortMap` of `getLbEndpoints`: the three protocol keys
are present (with empty inner maps), all other keys absent. -/
def emptyTbl : Tbl := fun p =>
  if p = "TCP" ∨ p = "UDP" ∨ p = "SCTP" then some (fun _ => none) else none

/-- The two-level Go map lookup `protoPortMap[proto][name]` (a missing outer
key yields a nil inner map, whose lookup misses). -/
def tblLookup (t : Tbl) (proto name : String) : Option lbEndpoints :=
  match t proto with
  | some inner => inner name
  | none => none

/-- The body of the innermost loop of `getLbEndpoints`: validate the port and
accumulate `ip` under `(port.protocol, port.name)`, appending to the IPs of
an existing entry and taking the port's target port (last seen wins). -/
def procPort (ip : String) (t : Tbl) (p : EndpointPort) : Tbl :=
  if validatePort p.protocol p.port then
    match t p.protocol with
    | some inner =>
      let ips : List String :=
        match inner p.name with
        | some lbEps => lbEps.IPs ++ [ip]
        | none => [ip]
      fun q =>
        if q = p.protocol then
          some (fun n => if n = p.name then some ⟨ips, p.port⟩ else inner n)
        else t q
    | none => t  -- unreachable when validation passed: the three keys are present
  else t

/-- The loop `for _, port := range s.Ports` for one address. -/
def procAddress (ports : List EndpointPort) (t : Tbl) (a : EndpointAddress) : Tbl :=
  ports.foldl (procPort a.ip) t

/-- The loop `for _, ip := range s.Addresses` for one subset. -/
def procSubset (t : Tbl) (s : EndpointSubset) : Tbl :=
  s.addresses.foldl (procAddress s.ports) t

/-- `(ovn *Controller) getLbEndpoints`: aggregate an Endpoints object into
the per-protocol, per-port-name backend table. -/
def getLbEndpoints (ep : Endpoints) : Tbl :=
  ep.subsets.foldl procSubset emptyTbl

/-- Whether an endpoint port declaration matches the (protocol, name) pair
and passes validation — the condition under which `getLbEndpoints` records
an address for that pair. -/
def pMatch (proto name : String) (p : EndpointPort) : Bool :=
  validatePort p.protocol p.port && (p.protocol == proto) && (p.name == name)

/-- The (address, target-port) records contributed to key `(proto, name)` by
the source's subset/address/port iteration, in iteration order. -/
def declaredPairs (ep : Endpoints) (proto name : String) : List (String × Int) :=
  ep.subsets.flatMap (fun s =>
    s.addresses.flatMap (fun a =>
      (s.ports.filter (pMatch proto name)).map (fun p => (a.ip, p.port))))

/-- The multiset (as an ordered list) of addresses from subsets declaring the
valid pair `(proto, name)`, each address repeated once per declaration. -/
def declaredAddresses (ep : Endpoints) (proto name : String) : List String :=
  (declaredPairs ep proto name).map Prod.fst

/-- How one accumulated record evolves an optional table entry. -/
def mergeOne (o : Option lbEndpoints) (pr : String × Int) : Option lbEndpoints :=
  some ⟨(match o with | some l => l.IPs | none => []) ++ [pr.1], pr.2⟩

/-- The three protocol keys are present in the table. -/
def tblOk (t : Tbl) : Prop :=
  (t "TCP").isSome ∧ (t "UDP").isSome ∧ (t "SCTP").isSome

theorem tblOk_emptyTbl : tblOk emptyTbl := by
  refine ⟨?_, ?_, ?_⟩ <;> simp [emptyTbl]

theorem procPort_isSome (ip : String) (t : Tbl) (p : EndpointPort) (q : String)
    (h : (t q).isSome) : ((procPort ip t p) q).isSome := by
  unfold procPort
  split
  · cases hq : t p.protocol with
    | none => simpa [hq] using h
    | some inner =>
      simp only [hq]
      by_cases hqp : q = p.protocol
      · simp [hqp]
      · simpa [hqp] using h
  · exact h

theorem tblOk_procPort (ip : String) (t : Tbl) (p : EndpointPort)
    (h : tblOk t) : tblOk (procPort ip t p) :=
  ⟨procPort_isSome ip t p _ h.1, procPort_isSome ip t p _ h.2.1,
    procPort_isSome ip t p _ h.2.2⟩

theorem tblLookup_procPort (ip : String) (t : Tbl) (p : EndpointPort)
    (proto name : String) (hok : tblOk t) :
    tblLookup (procPort ip t p) proto name =
      if pMatch proto name p then mergeOne (tblLookup t proto name) (ip, p.port)
      else tblLookup t proto name := by
  by_cases hv : validatePort p.protocol p.port = true
  case neg =>
    have hm : ¬ pMatch proto name p = true := by
      intro hmm
      unfold pMatch at hmm
      obtain ⟨h1, -⟩ := Bool.and_eq_true .. |>.mp hmm
      obtain ⟨h2, -⟩ := Bool.and_eq_true .. |>.mp h1
      exact hv h2
    simp [procPort, hv, hm]
  case pos =>
    have hsome : (t p.protocol).isSome := by
      have h3 := hv
      unfold validatePort at h3
      obtain ⟨h3, -⟩ := Bool.and_eq_true .. |>.mp h3
      rw [Bool.or_eq_true, Bool.or_eq_true] at h3
      rcases h3 with (h1 | h1) | h1 <;>
        · rw [eq_of_beq h1]
          first
          | exact hok.1
          | exact hok.2.1
          | exact hok.2.2
    rcases Option.isSome_iff_exists.mp hsome with ⟨inner, hinner⟩
    unfold procPort tblLookup
    simp only [hv, if_true, hinner]
    by_cases hp : proto = p.protocol
    · have hti : t proto = some inner := by rw [hp]; exact hinner
      simp only [if_pos hp, hti]
      by_cases hn : name = p.name
      · have hm : pMatch proto name p = true := by
          simp [pMatch, hv, hp, hn]
        simp only [if_pos hn, if_pos hm, mergeOne]
        rw [hn]
        cases hin : inner p.name <;> simp [hin]
      · have hm : ¬ pMatch proto name p = true := by
          intro hmm
          unfold pMatch at hmm
          obtain ⟨-, h2⟩ := Bool.and_eq_true .. |>.mp hmm
          exact hn (eq_of_beq h2).symm
        simp only [if_neg hn, if_neg hm]
    · have hm : ¬ pMatch proto name p = true := by
        intro hmm
        unfold pMatch at hmm
        obtain ⟨h1, -⟩ := Bool.and_eq_true .. |>.mp hmm
        obtain ⟨-, h2⟩ := Bool.and_eq_true .. |>.mp h1
        exact hp (eq_of_beq h2).symm
      simp only [if_neg hp, if_neg hm]

theorem tblLookup_foldl_procPort (ip : String) (ports : List EndpointPort)
    (t : Tbl) (proto name : String) (hok : tblOk t) :
    tblLookup (ports.foldl (procPort ip) t) proto name =
      ((ports.filter (pMatch proto name)).map (fun p => (ip, p.port))).foldl
        mergeOne (tblLookup t proto name) := by
  induction ports generalizing t with
  | nil => rfl
  | cons p ps ih =>
    rw [List.foldl_cons]
    rw [ih (procPort ip t p) (tblOk_procPort ip t p hok)]
    rw [tblLookup_procPort ip t p proto name hok]
    by_cases hm : pMatch proto name p
    · simp [hm, List.filter_cons]
    · simp [hm, List.filter_cons]

theorem tblOk_foldl_procPort (ip : String) (ports : List EndpointPort)
    (t : Tbl) (hok : tblOk t) : tblOk (ports.foldl (procPort ip) t) := by
  induction ports generalizing t with
  | nil => exact hok
  | cons p ps ih => exact ih _ (tblOk_procPort ip t p hok)

theorem tblLookup_procAddress (ports : List EndpointPort)
    (addrs : List EndpointAddress) (t : Tbl) (proto name : String)
    (hok : tblOk t) :
    tblLookup (addrs.foldl (procAddress ports) t) proto name =
      (addrs.flatMap (fun a =>
        (ports.filter (pMatch proto name)).map (fun p => (a.ip, p.port)))).foldl
        mergeOne (tblLookup t proto name) := by
  induction addrs generalizing t with
  | nil => rfl
  | cons a as ih =>
    rw [List.foldl_cons, List.flatMap_cons, List.foldl_append]
    rw [ih (procAddress ports t a) (tblOk_foldl_procPort a.ip ports t hok)]
    rw [show procAddress ports t a = ports.foldl (procPort a.ip) t from rfl]
    rw [tblLookup_foldl_procPort a.ip ports t proto name hok]

theorem tblOk_procAddress (ports : List EndpointPort)
    (addrs : List EndpointAddress) (t : Tbl) (hok : tblOk t) :
    tblOk (addrs.foldl (procAddress ports) t) := by
  induction addrs generalizing t with
  | nil => exact hok
  | cons a as ih => exact ih _ (tblOk_foldl_procPort a.ip ports t hok)

theorem tblLookup_procSubset (subsets : List EndpointSubset) (t : Tbl)
    (proto name : String) (hok : tblOk t) :
    tblLookup (subsets.foldl procSubset t) proto name =
      (subsets.flatMap (fun s =>
        s.addresses.flatMap (fun a =>
          (s.ports.filter (pMatch proto name)).map (fun p => (a.ip, p.port))))).foldl
        mergeOne (tblLookup t proto name) := by
  induction subsets generalizing t with
  | nil => rfl
  | cons s ss ih =>
    rw [List.foldl_cons, List.flatMap_cons, List.foldl_append]
    rw [ih (procSubset t s) (tblOk_procAddress s.ports s.addresses t hok)]
    rw [show procSubset t s = s.addresses.foldl (procAddress s.ports) t from rfl]
    rw [tblLookup_procAddress s.ports s.addresses t proto name hok]

theorem foldl_mergeOne_some (l : List (String × Int)) (x : lbEndpoints) :
    Option.map lbEndpoints.IPs (l.foldl mergeOne (some x)) =
      some (x.IPs ++ l.map Prod.fst) := by
  induction l generalizing x with
  | nil => simp
  | cons pr rest ih =>
    rw [List.foldl_cons]
    rw [show mergeOne (some x) pr = some ⟨x.IPs ++ [pr.1], pr.2⟩ from rfl]
    rw [ih ⟨x.IPs ++ [pr.1], pr.2⟩]
    simp

theorem foldl_mergeOne_none (l : List (String × Int)) :
    Option.map lbEndpoints.IPs (l.foldl mergeOne none) =
      if l = [] then none else some (l.map Prod.fst) := by
  cases l with
  | nil => rfl
  | cons pr rest =>
    rw [List.foldl_cons]
    rw [show mergeOne none pr = some ⟨[pr.1], pr.2⟩ from rfl]
    rw [foldl_mergeOne_some rest ⟨[pr.1], pr.2⟩]
    simp

theorem tblLookup_emptyTbl (proto name : String) :
    tblLookup emptyTbl proto name = none := by
  unfold tblLookup emptyTbl
  by_cases h : proto = "TCP" ∨ proto = "UDP" ∨ proto = "SCTP" <;> simp [h]

/-- Master characterization of `getLbEndpoints`: the IPs stored under any
`(proto, name)` pair are exactly the addresses declared for that pair, and
a key is present exactly when some subset validly declares it. -/
theorem getLbEndpoints_IPs (ep : Endpoints) (proto name : String) :
    Option.map lbEndpoints.IPs (tblLookup (getLbEndpoints ep) proto name) =
      if declaredAddresses ep proto name = [] then none
      else some (declaredAddresses ep proto name) := by
  unfold getLbEndpoints
  rw [tblLookup_procSubset ep.subsets emptyTbl proto name tblOk_emptyTbl]
  rw [tblLookup_emptyTbl]
  rw [show (ep.subsets.flatMap (fun s =>
        s.addresses.flatMap (fun a =>
          (s.ports.filter (pMatch proto name)).map (fun p => (a.ip, p.port))))) =
      declaredPairs ep proto name from rfl]
  rw [foldl_mergeOne_none]
  unfold declaredAddresses
  by_cases h : declaredPairs ep proto name = []
  · simp [h]
  · simp [h]

/-! ### Host-endpoint classification (`hasHostEndpoints`) -/

/-- Split a character list on a separator character. -/
def splitOnChar (c : Char) : List Char → List (List Char)
  | [] => [[]]
  | x :: xs =>
    let r := splitOnChar c xs
    if x = c then [] :: r
    else
      match r with
      | [] => [[x]]
      | g :: gs => (x :: g) :: gs

/-- Numeric value of a decimal digit list (none when empty, non-digit, or
longer than 3 characters). -/
def parseOctet (cs : List Char) : Option Nat :=
  if cs = [] ∨ 3 < cs.length ∨ ¬ cs.all Char.isDigit then none
  else
    let v := cs.foldl (fun acc c => acc * 10 + (c.toNat - 48)) 0
    if v ≤ 255 then some v else none

/-- Modelled from the spec: `net.ParseIP` (standard library, not in src),
restricted to IPv4 dotted-quad form; the spec only requires that malformed
addresses fail to parse (`none`) and are then outside every range. The
parsed address is its 32-bit numeric value. -/
def parseIP (s : String) : Option Nat :=
  match (splitOnChar '.' s.data).mapM parseOctet with
  | some [a, b, c, d] => some (a * 16777216 + b * 65536 + c * 256 + d)
  | _ => none

/-- A cluster pod-address range (one entry of `config.Default.ClusterSubnets`). -/
structure Cidr where
  base : Nat
  maskBits : Nat
deriving DecidableEq, Repr

/-- Modelled from the spec: `net.IPNet.Contains` (standard library, not in
src) — a parsed address is contained when its network part matches; a
failed parse (`none`, Go's nil IP) is contained in no range. -/
def cidrContains (c : Cidr) (oip : Option Nat) : Bool :=
  match oip with
  | none => false
  | some ip => ip / 2 ^ (32 - c.maskBits) == c.base / 2 ^ (32 - c.maskBits)

/-- `hasHostEndpoints` from endpoints.go: scan the addresses in order; an
address contained in no configured cluster range makes the result true. -/
def hasHostEndpoints (subnets : List Cidr) : List String → Bool
  | [] => false
  | ip :: rest =>
    if subnets.any (fun c => cidrContains c (parseIP ip)) then
      hasHostEndpoints subnets rest
    else true

theorem hasHostEndpoints_eq_any (subnets : List Cidr) (ips : List String) :
    hasHostEndpoints subnets ips =
      ips.any (fun ip => !subnets.any (fun c => cidrContains c (parseIP ip))) := by
  induction ips with
  | nil => rfl
  | cons ip rest ih =>
    unfold hasHostEndpoints
    by_cases h : subnets.any (fun c => cidrContains c (parseIP ip)) = true
    · simp [h, ih]
    · simp [Bool.eq_false_iff.mpr h]

/-! ### Services, configuration environment, and the operation trace -/

/-- Modelled from the spec: the Kubernetes service exposure types consulted
through `util.ServiceTypeHasNodePort` / `util.ServiceTypeHasClusterIP`. -/
inductive ServiceType where
  | ClusterIP
  | NodePort
  | LoadBalancer
  | ExternalName
deriving DecidableEq, Repr

/-- Modelled from the spec: `util.ServiceTypeHasNodePort` (not in src) — the
service type includes NodePort exposure. -/
def serviceTypeHasNodePort : ServiceType → Bool
  | .NodePort => true
  | .LoadBalancer => true
  | _ => false

/-- Modelled from the spec: `util.ServiceTypeHasClusterIP` (not in src) — the
service type includes ClusterIP exposure. -/
def serviceTypeHasClusterIP : ServiceType → Bool
  | .ExternalName => false
  | _ => true

/-- `kapi.ServicePort` (fields used by the module). -/
structure ServicePort where
  name : String
  protocol : String
  port : Int
  nodePort : Int
deriving DecidableEq, Repr

/-- `kapi.Service` (fields used by the module): `ingressIPs` lists the
`ing.IP` strings of `svc.Status.LoadBalancer.Ingress` (possibly `""`). -/
structure Service where
  name : String
  clusterIP : String
  serviceType : ServiceType
  annotations : List (String × String)
  ports : List ServicePort
  externalIPs : List String
  ingressIPs : List String
deriving DecidableEq, Repr

/-- `config.Gateway.Mode`: only the comparison with `GatewayModeShared`
matters to this module. -/
inductive GatewayMode where
  | Shared
  | Local
deriving DecidableEq, Repr

/-- Whether `leading` is a leading segment of `rest`. -/
def leadEq : List Char → List Char → Bool
  | [], _ => true
  | _ :: _, [] => false
  | a :: as, b :: bs => a == b && leadEq as bs

/-- `strings.HasSuffix s suffix`. -/
def strHasSuffix (s suffix : String) : Bool :=
  leadEq suffix.data.reverse s.data.reverse

/-- Modelled from the spec: `util.JoinHostPortInt32` (not in src) — format a
(host, port) pair as the VIP key string. -/
def joinHostPortInt32 (ip : String) (port : Int) : String :=
  ip ++ ":" ++ toString port

/-- Modelled from the spec: `types.GWRouterPrefix` (not in src), the marker
prepended to a node name to form its gateway router name. -/
def gwRouterNameHead : String := "GR_"

/-- One call issued against an external collaborator (load-balancer backend,
idling balancer, full-sync controller), in issue order.
`callAddEndpoints` records an invocation of `AddEndpoints` made by the
legacy bootstrap, with its `addClusterLBs` argument. -/
inductive Op where
  | addToIdlingBalancer (svc : String)
  | deleteFromBalancers (svc : String)
  | deleteFromIdlingBalancer (svc : String)
  | createPerNodeVIPs (vips : Option (List String)) (protocol : String)
      (sourcePort : Int) (targetIPs : List String) (targetPort : Int)
  | createLoadBalancerVIPs (lb : String) (vips : List String)
      (sourcePort : Int) (targetIPs : List String) (targetPort : Int)
  | deleteLoadBalancerVIP (lb : String) (vip : String)
  | deleteNodeVIPs (vips : List String) (protocol : String) (port : Int)
  | configureLoadBalancer (lb : String) (vip : String) (port : Int)
      (backends : Option (List String))
  | requestFullSync
  | callAddEndpoints (ep : String) (includeClusterTier : Bool)
deriving DecidableEq, Repr

/-- The external collaborators and global configuration visible to the
module, as oracle functions: lookups return `Option` (`none` = Go error /
nil), and each fallible backend write whose failure alters control flow has
a success oracle (`...Ok`).  Failures that are only logged need no oracle. -/
structure Env where
  getService : String → String → Option Service
  sctpSupport : Bool
  gatewayMode : GatewayMode
  clusterSubnets : List Cidr
  emptyLbEvents : Bool
  idlingSuffix : String
  getLoadBalancer : String → Option String
  createPerNodeVIPsOk : Option (List String) → String → Int → List String → Int → Bool
  createLoadBalancerVIPsOk : String → List String → Int → List String → Int → Bool
  svcControllerOn : Bool
  requestFullSyncRes : Option String
  getNamespaces : Option (List String)
  getEndpoints : String → Option (List Endpoints)
  gatewayInterfaceNone : Bool
  getGatewayPhysicalIPs : String → Option (List String)
  getOvnGateways : List String
  getGatewayLoadBalancer : String → String → Option String
  getWorkerFromGatewayRouter : String → String
  getWorkerLoadBalancer : String → String → Option String

/-- `svcNeedsIdling` from endpoints.go. -/
def svcNeedsIdling (env : Env) (annotations : List (String × String)) : Bool :=
  if !env.emptyLbEvents then false
  else annotations.any (fun kv => strHasSuffix kv.1 env.idlingSuffix)

/-- Modelled from the spec: `util.IsClusterIPSet` (not in src) — the service
has an assigned cluster address. -/
def isClusterIPSet (svc : Service) : Bool :=
  svc.clusterIP != "None" && svc.clusterIP != ""

/-! ### AddEndpoints -/

/-- The ClusterIP part of the `AddEndpoints` per-port loop body (lines
95–139): cluster-tier vs per-node placement of the cluster address, then
external-IP and ingress VIPs.  A failed create in either placement branch is
Go `continue`: the remaining steps for this port are skipped. -/
def addEndpointsClusterIP (env : Env) (svc : Service) (lbEps : lbEndpoints)
    (addClusterLBs : Bool) (sp : ServicePort) : List Op :=
  if serviceTypeHasClusterIP svc.serviceType then
    match env.getLoadBalancer sp.protocol with
    | none => []
    | some lb =>
      let hostShared : Bool :=
        hasHostEndpoints env.clusterSubnets lbEps.IPs &&
          decide (env.gatewayMode = GatewayMode.Shared)
      let main : List Op × Bool :=
        if hostShared then
          let op := Op.createPerNodeVIPs (some [svc.clusterIP]) sp.protocol
            sp.port lbEps.IPs lbEps.Port
          if env.createPerNodeVIPsOk (some [svc.clusterIP]) sp.protocol
              sp.port lbEps.IPs lbEps.Port then
            ([op, Op.deleteLoadBalancerVIP lb
              (joinHostPortInt32 svc.clusterIP sp.port)], false)
          else ([op], true)
        else if addClusterLBs then
          let op := Op.createLoadBalancerVIPs lb [svc.clusterIP] sp.port
            lbEps.IPs lbEps.Port
          if env.createLoadBalancerVIPsOk lb [svc.clusterIP] sp.port
              lbEps.IPs lbEps.Port then
            ([op, Op.deleteNodeVIPs [svc.clusterIP] sp.protocol sp.port], false)
          else ([op], true)
        else ([], false)
      if main.2 then main.1
      else
        main.1 ++
        (if svc.externalIPs.length > 0 then
          [Op.createPerNodeVIPs (some svc.externalIPs) sp.protocol sp.port
            lbEps.IPs lbEps.Port]
         else []) ++
        svc.ingressIPs.flatMap (fun ing =>
          if ing == "" then []
          else [Op.createPerNodeVIPs (some [ing]) sp.protocol sp.port
            lbEps.IPs lbEps.Port])
  else []

/-- The `AddEndpoints` per-port loop body (lines 78–140). -/
def addEndpointsPort (env : Env) (svc : Service) (tbl : Tbl)
    (addClusterLBs : Bool) (sp : ServicePort) : List Op :=
  match tblLookup tbl sp.protocol sp.name with
  | none => []
  | some lbEps =>
    if !env.sctpSupport && sp.protocol == "SCTP" then []
    else
      let npOps : List Op :=
        if serviceTypeHasNodePort svc.serviceType then
          [Op.createPerNodeVIPs none sp.protocol sp.nodePort lbEps.IPs lbEps.Port]
        else []
      let npFailed : Bool :=
        serviceTypeHasNodePort svc.serviceType &&
          !env.createPerNodeVIPsOk none sp.protocol sp.nodePort lbEps.IPs lbEps.Port
      if npFailed then npOps
      else npOps ++ addEndpointsClusterIP env svc lbEps addClusterLBs sp

/-- `(ovn *Controller) AddEndpoints`: the trace of operations issued and the
returned error. -/
def AddEndpoints (env : Env) (ep : Endpoints) (addClusterLBs : Bool) :
    List Op × Option String :=
  match env.getService ep.nspace ep.name with
  | none => ([], none)
  | some svc =>
    if !isClusterIPSet svc then ([], none)
    else
      let tbl := getLbEndpoints ep
      if svcNeedsIdling env svc.annotations && ep.subsets.isEmpty then
        ([Op.addToIdlingBalancer svc.name, Op.deleteFromBalancers svc.name], none)
      else
        (Op.deleteFromIdlingBalancer svc.name ::
          svc.ports.flatMap (addEndpointsPort env svc tbl addClusterLBs), none)

/-! ### deleteEndpoints -/

/-- The per-gateway body of the `deleteEndpoints` port loop (lines 226–295):
shared-mode clusterIP clears on gateway and worker tiers, then ingress,
node-port (a physical-IP lookup failure is Go `continue`, skipping the
remaining clears for this gateway) and external-IP clears.  The worker-tier
external-IP clear uses `sp.nodePort`, exactly as line 290 of the source. -/
def deleteEndpointsGateway (env : Env) (svc : Service) (sp : ServicePort)
    (gw : String) : List Op :=
  match env.getGatewayLoadBalancer gw sp.protocol with
  | none => []
  | some gatewayLB =>
    let shGw : List Op :=
      if env.gatewayMode = GatewayMode.Shared then
        [Op.configureLoadBalancer gatewayLB svc.clusterIP sp.port none]
      else []
    match env.getWorkerLoadBalancer (env.getWorkerFromGatewayRouter gw)
        sp.protocol with
    | none => shGw
    | some workerLB =>
      let pre : List Op :=
        shGw ++
        (if env.gatewayMode = GatewayMode.Shared then
          [Op.configureLoadBalancer workerLB svc.clusterIP sp.port none]
         else []) ++
        svc.ingressIPs.flatMap (fun ing =>
          if ing == "" then []
          else [Op.configureLoadBalancer gatewayLB ing sp.port none,
                Op.configureLoadBalancer workerLB ing sp.port none])
      let extOps : List Op :=
        svc.externalIPs.flatMap (fun extIP =>
          [Op.configureLoadBalancer gatewayLB extIP sp.port none,
           Op.configureLoadBalancer workerLB extIP sp.nodePort none])
      if serviceTypeHasNodePort svc.serviceType then
        match env.getGatewayPhysicalIPs gw with
        | none => pre
        | some pips =>
          pre ++
          pips.flatMap (fun pip =>
            [Op.configureLoadBalancer gatewayLB pip sp.nodePort none,
             Op.configureLoadBalancer workerLB pip sp.nodePort none]) ++
          extOps
      else pre ++ extOps

/-- The `deleteEndpoints` per-port loop body (lines 214–296). -/
def deleteEndpointsPort (env : Env) (svc : Service) (gateways : List String)
    (sp : ServicePort) : List Op :=
  match env.getLoadBalancer sp.protocol with
  | none => []
  | some clusterLB =>
    Op.configureLoadBalancer clusterLB svc.clusterIP sp.port none ::
      gateways.flatMap (deleteEndpointsGateway env svc sp)

/-- `(ovn *Controller) deleteEndpoints`: the trace of operations issued and
the returned error. -/
def deleteEndpoints (env : Env) (ep : Endpoints) : List Op × Option String :=
  match env.getService ep.nspace ep.name with
  | none => ([], none)
  | some svc =>
    if !isClusterIPSet svc then ([], none)
    else if svcNeedsIdling env svc.annotations then
      ([Op.addToIdlingBalancer svc.name, Op.deleteFromBalancers svc.name], none)
    else
      (Op.deleteFromIdlingBalancer svc.name ::
        svc.ports.flatMap (deleteEndpointsPort env svc env.getOvnGateways), none)

/-! ### handleNodePortLB -/

/-- The inner loop of the legacy bootstrap (lines 177–183): invoke the add
function for each Endpoints object with `addClusterLBs = false`; a non-nil
error aborts the whole bootstrap. -/
def handleEndpointsList (addFn : Endpoints → Bool → List Op × Option String)
    (node : String) : List Endpoints → List Op × Option String
  | [] => ([], none)
  | ep :: rest =>
    let r := addFn ep false
    match r.2 with
    | some e =>
      (Op.callAddEndpoints ep.name false :: r.1,
        some ("unable to handle adding endpoints for new node: " ++ node ++
          ", error: " ++ e))
    | none =>
      let r2 := handleEndpointsList addFn node rest
      (Op.callAddEndpoints ep.name false :: r.1 ++ r2.1, r2.2)

/-- The namespace loop of the legacy bootstrap (lines 171–184): a failure to
list one namespace's Endpoints is logged and that namespace skipped. -/
def handleNamespacesList (env : Env)
    (addFn : Endpoints → Bool → List Op × Option String) (node : String) :
    List String → List Op × Option String
  | [] => ([], none)
  | ns :: rest =>
    match env.getEndpoints ns with
    | none => handleNamespacesList env addFn node rest
    | some eps =>
      let r := handleEndpointsList addFn node eps
      match r.2 with
      | some e => (r.1, some e)
      | none =>
        let r2 := handleNamespacesList env addFn node rest
        (r.1 ++ r2.1, r2.2)

/-- `(ovn *Controller) handleNodePortLB`, generic in the add function it
invokes (the source calls the receiver's own `AddEndpoints`). -/
def handleNodePortLBWith (env : Env)
    (addFn : Endpoints → Bool → List Op × Option String) (node : String) :
    List Op × Option String :=
  if !env.gatewayInterfaceNone &&
      (env.getGatewayPhysicalIPs (gwRouterNameHead ++ node)).isNone then
    ([], some ("gateway physical IP for node " ++ node ++ " does not yet exist"))
  else if env.svcControllerOn then
    ([Op.requestFullSync], env.requestFullSyncRes)
  else
    match env.getNamespaces with
    | none => ([], some "failed to get k8s namespaces")
    | some nss => handleNamespacesList env addFn node nss

/-- `(ovn *Controller) handleNodePortLB` proper. -/
def handleNodePortLB (env : Env) (node : String) : List Op × Option String :=
  handleNodePortLBWith env (fun ep b => AddEndpoints env ep b) node

/-! ### Shared concrete fixtures for witnesses and counterexamples -/

/-- The cluster pod range 10.128.0.0/14. -/
def subnet1 : Cidr := ⟨10 * 16777216 + 128 * 65536, 14⟩

/-- A benign environment: every lookup succeeds, every backend write
succeeds, no service is registered, legacy mode. -/
def envBase : Env where
  getService := fun _ _ => none
  sctpSupport := true
  gatewayMode := .Shared
  clusterSubnets := [subnet1]
  emptyLbEvents := false
  idlingSuffix := "idled-at"
  getLoadBalancer := fun _ => some "clusterLB"
  createPerNodeVIPsOk := fun _ _ _ _ _ => true
  createLoadBalancerVIPsOk := fun _ _ _ _ _ => true
  svcControllerOn := false
  requestFullSyncRes := none
  getNamespaces := some []
  getEndpoints := fun _ => none
  gatewayInterfaceNone := true
  getGatewayPhysicalIPs := fun _ => some ["172.16.0.10"]
  getOvnGateways := ["GR_node1"]
  getGatewayLoadBalancer := fun _ _ => some "gwLB"
  getWorkerFromGatewayRouter := fun _ => "node1"
  getWorkerLoadBalancer := fun _ _ => some "workerLB"

/-! ### Helper lemmas about the traces -/

theorem tblOk_foldl_procSubset (subsets : List EndpointSubset) (t : Tbl)
    (hok : tblOk t) : tblOk (subsets.foldl procSubset t) := by
  induction subsets generalizing t with
  | nil => exact hok
  | cons s ss ih => exact ih _ (tblOk_procAddress s.ports s.addresses t hok)

theorem tblOk_getLbEndpoints (ep : Endpoints) : tblOk (getLbEndpoints ep) :=
  tblOk_foldl_procSubset ep.subsets emptyTbl tblOk_emptyTbl

/-! ### C6 — endpoint aggregation correctness -/

/-- C6: for any Endpoints object, `getLbEndpoints` returns a table with an
entry for each of the three protocols; the lookup of any `(proto, name)`
pair holds (as its `IPs`) exactly the list — hence the multiset — of
addresses declared for that pair by the subsets, with invalid
protocol/port declarations (`pMatch` requires `validatePort`) excluded
individually, and the lookup misses exactly when no subset validly declares
the pair. -/
theorem claim_C6_aggregation (ep : Endpoints) (proto name : String) :
    (getLbEndpoints ep "TCP").isSome ∧ (getLbEndpoints ep "UDP").isSome ∧
    (getLbEndpoints ep "SCTP").isSome ∧
    Option.map lbEndpoints.IPs (tblLookup (getLbEndpoints ep) proto name) =
      (if declaredAddresses ep proto name = [] then none
       else some (declaredAddresses ep proto name)) :=
  ⟨(tblOk_getLbEndpoints ep).1, (tblOk_getLbEndpoints ep).2.1,
    (tblOk_getLbEndpoints ep).2.2, getLbEndpoints_IPs ep proto name⟩

/-! ### C7 — host-endpoint classification -/

/-- C7: `hasHostEndpoints` is true iff some address lies outside all
configured cluster ranges; it is false on the empty list; and an address
that fails to parse is outside every range, so its presence forces the
result true. -/
theorem claim_C7_hostClassification (subnets : List Cidr) (ips : List String) :
    (hasHostEndpoints subnets ips = true ↔
      ∃ ip ∈ ips, ∀ c ∈ subnets, cidrContains c (parseIP ip) = false) ∧
    hasHostEndpoints subnets [] = false ∧
    (∀ ip, ip ∈ ips → parseIP ip = none →
      hasHostEndpoints subnets ips = true) := by
  have hiff : hasHostEndpoints subnets ips = true ↔
      ∃ ip ∈ ips, ∀ c ∈ subnets, cidrContains c (parseIP ip) = false := by
    rw [hasHostEndpoints_eq_any, List.any_eq_true]
    constructor
    · rintro ⟨ip, hip, hb⟩
      refine ⟨ip, hip, ?_⟩
      intro c hc
      rw [Bool.not_eq_true'] at hb
      rcases Bool.eq_false_iff.mp hb with h
      by_contra hcon
      exact h (List.any_eq_true.mpr ⟨c, hc, Bool.not_eq_false _ |>.mp hcon⟩)
    · rintro ⟨ip, hip, hall⟩
      refine ⟨ip, hip, ?_⟩
      rw [Bool.not_eq_true']
      rw [Bool.eq_false_iff]
      intro hany
      rcases List.any_eq_true.mp hany with ⟨c, hc, hcc⟩
      rw [hall c hc] at hcc
      exact Bool.false_ne_true hcc
  refine ⟨hiff, rfl, ?_⟩
  intro ip hip hparse
  refine hiff.mpr ⟨ip, hip, ?_⟩
  intro c _
  rw [hparse]
  rfl

/-- Witness for C7: the unparsable address "abc" alone makes the
classification return host = true. -/
theorem claim_C7_witness :
    parseIP "abc" = none ∧ hasHostEndpoints [subnet1] ["abc"] = true :=
  ⟨by decide,
    (claim_C7_hostClassification [subnet1] ["abc"]).2.2 "abc" (by decide)
      (by decide)⟩

/-! ### C8 — expected absence is not an error -/

/-- C8: when the owning service cannot be resolved, or when the resolved
service has no assigned cluster address, both `AddEndpoints` and
`deleteEndpoints` return nil without issuing any operation. -/
theorem claim_C8_expectedAbsence (env : Env) (ep : Endpoints) (b : Bool) :
    (env.getService ep.nspace ep.name = none →
      AddEndpoints env ep b = ([], none) ∧ deleteEndpoints env ep = ([], none)) ∧
    (∀ svc, env.getService ep.nspace ep.name = some svc →
      isClusterIPSet svc = false →
      AddEndpoints env ep b = ([], none) ∧ deleteEndpoints env ep = ([], none)) := by
  constructor
  · intro h
    constructor
    · unfold AddEndpoints
      rw [h]
    · unfold deleteEndpoints
      rw [h]
  · intro svc h hcip
    constructor
    · unfold AddEndpoints
      rw [h]
      simp [hcip]
    · unfold deleteEndpoints
      rw [h]
      simp [hcip]

/-- A service with no assigned cluster address. -/
def svcNoIP : Service :=
  ⟨"svc8", "", .ClusterIP, [], [⟨"http", "TCP", 80, 0⟩], [], []⟩

/-- An environment resolving every endpoints object to `svcNoIP`. -/
def envNoIP : Env := { envBase with getService := fun _ _ => some svcNoIP }

/-- An endpoints object with one cluster-networked address on port http. -/
def epBasic : Endpoints :=
  ⟨"svc8", "ns1", [⟨[⟨"10.128.0.5"⟩], [⟨"http", 8080, "TCP"⟩]⟩]⟩

/-- Witness for C8: a missing service and a service with empty cluster
address both produce the silent no-op result. -/
theorem claim_C8_witness :
    AddEndpoints envBase epBasic true = ([], none) ∧
    deleteEndpoints envNoIP epBasic = ([], none) :=
  ⟨((claim_C8_expectedAbsence envBase epBasic true).1 rfl).1,
    ((claim_C8_expectedAbsence envNoIP epBasic true).2 svcNoIP rfl rfl).2⟩

/-! ### C5 — idling exclusivity on the Add path -/

/-- C5: when the service needs idling and the Endpoints object has zero
subsets, `AddEndpoints` registers the service on the idling balancer,
clears it from every non-idling balancer, and returns nil having issued no
other operation; in every other case the trace starts by removing the
service from the idling balancer, before the per-port placement ops. -/
theorem claim_C5_idlingExclusivity (env : Env) (ep : Endpoints) (b : Bool)
    (svc : Service)
    (hsvc : env.getService ep.nspace ep.name = some svc)
    (hcip : isClusterIPSet svc = true) :
    (svcNeedsIdling env svc.annotations = true → ep.subsets = [] →
      AddEndpoints env ep b =
        ([Op.addToIdlingBalancer svc.name, Op.deleteFromBalancers svc.name],
          none)) ∧
    (¬ (svcNeedsIdling env svc.annotations = true ∧ ep.subsets = []) →
      AddEndpoints env ep b =
        (Op.deleteFromIdlingBalancer svc.name ::
          svc.ports.flatMap (addEndpointsPort env svc (getLbEndpoints ep) b),
          none)) := by
  constructor
  · intro hi he
    unfold AddEndpoints
    rw [hsvc]
    simp [hcip, hi, he]
  · intro hn
    have hb : (svcNeedsIdling env svc.annotations && ep.subsets.isEmpty) = false := by
      by_cases h1 : svcNeedsIdling env svc.annotations = true
      · by_cases h2 : ep.subsets = []
        · exact absurd ⟨h1, h2⟩ hn
        · have h3 : ep.subsets.isEmpty = false := by
            rw [Bool.eq_false_iff]
            intro hcon
            exact h2 (List.isEmpty_iff.mp hcon)
          simp [h1, h3]
      · simp [Bool.eq_false_iff.mpr h1]
    unfold AddEndpoints
    rw [hsvc]
    simp [hcip, hb]

/-- A service eligible for idling (annotation key ends in the idling
suffix). -/
def svcIdle : Service :=
  ⟨"svc5", "10.96.0.5", .ClusterIP, [("k8s.ovn.org/idled-at", "t")],
    [⟨"http", "TCP", 80, 0⟩], [], []⟩

/-- Environment with the empty-LB-events feature on, resolving to
`svcIdle`. -/
def envIdle : Env :=
  { envBase with getService := fun _ _ => some svcIdle, emptyLbEvents := true }

/-- An endpoints object with zero subsets. -/
def epEmpty : Endpoints := ⟨"svc5", "ns1", []⟩

/-- Witness for C5: the idling-eligible, zero-subset case produces exactly
the idling handoff ops and nil. -/
theorem claim_C5_witness :
    svcNeedsIdling envIdle svcIdle.annotations = true ∧
    AddEndpoints envIdle epEmpty true =
      ([Op.addToIdlingBalancer "svc5", Op.deleteFromBalancers "svc5"], none) :=
  ⟨by decide,
    (claim_C5_idlingExclusivity envIdle epEmpty true svcIdle rfl rfl).1
      (by decide) rfl⟩

/-! ### C1 — placement exclusivity on the Add path -/

/-- C1: for a service port processed by the `AddEndpoints` loop (backend set
found, SCTP admissible, NodePort step not failed, ClusterIP type, cluster
load balancer resolved): when the backend set contains host endpoints and
the gateway mode is shared, the cluster-address VIP is placed on the
per-node tier, the same (address, port) VIP on the cluster tier is
explicitly cleared (once the per-node create succeeded — on failure the
port is abandoned), and no cluster-tier VIP create is issued at all;
otherwise, when the caller requested cluster-tier placement, the VIP is
placed on the cluster tier and the per-node VIP for the same (address,
port) is cleared; and when cluster-tier placement was not requested no
cluster-tier create is issued either — so the port never places the
cluster-address VIP on both tiers. -/
theorem claim_C1_placementExclusivity (env : Env) (svc : Service) (tbl : Tbl)
    (b : Bool) (sp : ServicePort) (lbEps : lbEndpoints) (lb : String)
    (hfound : tblLookup tbl sp.protocol sp.name = some lbEps)
    (hsctp : (!env.sctpSupport && sp.protocol == "SCTP") = false)
    (hnp : (serviceTypeHasNodePort svc.serviceType &&
      !env.createPerNodeVIPsOk none sp.protocol sp.nodePort lbEps.IPs
        lbEps.Port) = false)
    (hcip : serviceTypeHasClusterIP svc.serviceType = true)
    (hlb : env.getLoadBalancer sp.protocol = some lb) :
    (hasHostEndpoints env.clusterSubnets lbEps.IPs = true ∧
        env.gatewayMode = GatewayMode.Shared →
      Op.createPerNodeVIPs (some [svc.clusterIP]) sp.protocol sp.port
          lbEps.IPs lbEps.Port ∈ addEndpointsPort env svc tbl b sp ∧
      (env.createPerNodeVIPsOk (some [svc.clusterIP]) sp.protocol sp.port
          lbEps.IPs lbEps.Port = true →
        Op.deleteLoadBalancerVIP lb (joinHostPortInt32 svc.clusterIP sp.port)
          ∈ addEndpointsPort env svc tbl b sp) ∧
      (∀ l v p t2 tp, Op.createLoadBalancerVIPs l v p t2 tp ∉
        addEndpointsPort env svc tbl b sp)) ∧
    (¬ (hasHostEndpoints env.clusterSubnets lbEps.IPs = true ∧
        env.gatewayMode = GatewayMode.Shared) → b = true →
      Op.createLoadBalancerVIPs lb [svc.clusterIP] sp.port lbEps.IPs
          lbEps.Port ∈ addEndpointsPort env svc tbl b sp ∧
      (env.createLoadBalancerVIPsOk lb [svc.clusterIP] sp.port lbEps.IPs
          lbEps.Port = true →
        Op.deleteNodeVIPs [svc.clusterIP] sp.protocol sp.port
          ∈ addEndpointsPort env svc tbl b sp)) ∧
    (¬ (hasHostEndpoints env.clusterSubnets lbEps.IPs = true ∧
        env.gatewayMode = GatewayMode.Shared) → b = false →
      ∀ l v p t2 tp, Op.createLoadBalancerVIPs l v p t2 tp ∉
        addEndpointsPort env svc tbl b sp) := by
  have hport : addEndpointsPort env svc tbl b sp =
      (if serviceTypeHasNodePort svc.serviceType then
        [Op.createPerNodeVIPs none sp.protocol sp.nodePort lbEps.IPs
          lbEps.Port]
       else []) ++ addEndpointsClusterIP env svc lbEps b sp := by
    unfold addEndpointsPort
    rw [hfound]
    simp only [hsctp, Bool.false_eq_true, if_false, hnp]
  refine ⟨?_, ?_, ?_⟩
  · rintro ⟨hhost, hmode⟩
    have hhs : (hasHostEndpoints env.clusterSubnets lbEps.IPs &&
        decide (env.gatewayMode = GatewayMode.Shared)) = true := by
      simp [hhost, hmode]
    by_cases hok : env.createPerNodeVIPsOk (some [svc.clusterIP]) sp.protocol
        sp.port lbEps.IPs lbEps.Port = true
    · have hcl : addEndpointsClusterIP env svc lbEps b sp =
          [Op.createPerNodeVIPs (some [svc.clusterIP]) sp.protocol sp.port
            lbEps.IPs lbEps.Port,
           Op.deleteLoadBalancerVIP lb
            (joinHostPortInt32 svc.clusterIP sp.port)] ++
          (if svc.externalIPs.length > 0 then
            [Op.createPerNodeVIPs (some svc.externalIPs) sp.protocol sp.port
              lbEps.IPs lbEps.Port]
           else []) ++
          svc.ingressIPs.flatMap (fun ing =>
            if ing == "" then []
            else [Op.createPerNodeVIPs (some [ing]) sp.protocol sp.port
              lbEps.IPs lbEps.Port]) := by
        unfold addEndpointsClusterIP
        rw [hlb]
        simp [hcip, hhs, hok]
      refine ⟨?_, fun _ => ?_, ?_⟩
      · rw [hport, hcl]
        simp
      · rw [hport, hcl]
        simp
      · intro l v p t2 tp hmem
        rw [hport, hcl] at hmem
        simp only [List.mem_append, List.mem_flatMap] at hmem
        rcases hmem with h | (h | h) | h
        · revert h
          split <;> simp
        · simp at h
        · revert h
          split <;> simp
        · rcases h with ⟨ing, -, h⟩
          revert h
          split <;> simp
    · have hokf : env.createPerNodeVIPsOk (some [svc.clusterIP]) sp.protocol
          sp.port lbEps.IPs lbEps.Port = false := Bool.eq_false_iff.mpr hok
      have hcl : addEndpointsClusterIP env svc lbEps b sp =
          [Op.createPerNodeVIPs (some [svc.clusterIP]) sp.protocol sp.port
            lbEps.IPs lbEps.Port] := by
        unfold addEndpointsClusterIP
        rw [hlb]
        simp [hcip, hhs, hokf]
      refine ⟨?_, fun hc => absurd hc hok, ?_⟩
      · rw [hport, hcl]
        simp
      · intro l v p t2 tp hmem
        rw [hport, hcl] at hmem
        simp only [List.mem_append] at hmem
        rcases hmem with h | h
        · revert h
          split <;> simp
        · simp at h
  · intro hnot hb
    subst hb
    have hhs : (hasHostEndpoints env.clusterSubnets lbEps.IPs &&
        decide (env.gatewayMode = GatewayMode.Shared)) = false := by
      by_cases hh : hasHostEndpoints env.clusterSubnets lbEps.IPs = true
      · have hm : ¬ env.gatewayMode = GatewayMode.Shared := fun hm =>
          hnot ⟨hh, hm⟩
        simp [hh, hm]
      · simp [Bool.eq_false_iff.mpr hh]
    by_cases hok : env.createLoadBalancerVIPsOk lb [svc.clusterIP] sp.port
        lbEps.IPs lbEps.Port = true
    · have hcl : addEndpointsClusterIP env svc lbEps true sp =
          [Op.createLoadBalancerVIPs lb [svc.clusterIP] sp.port lbEps.IPs
            lbEps.Port,
           Op.deleteNodeVIPs [svc.clusterIP] sp.protocol sp.port] ++
          (if svc.externalIPs.length > 0 then
            [Op.createPerNodeVIPs (some svc.externalIPs) sp.protocol sp.port
              lbEps.IPs lbEps.Port]
           else []) ++
          svc.ingressIPs.flatMap (fun ing =>
            if ing == "" then []
            else [Op.createPerNodeVIPs (some [ing]) sp.protocol sp.port
              lbEps.IPs lbEps.Port]) := by
        unfold addEndpointsClusterIP
        rw [hlb]
        simp [hcip, hhs, hok]
      constructor
      · rw [hport, hcl]
        simp
      · intro _
        rw [hport, hcl]
        simp
    · have hokf : env.createLoadBalancerVIPsOk lb [svc.clusterIP] sp.port
          lbEps.IPs lbEps.Port = false := Bool.eq_false_iff.mpr hok
      have hcl : addEndpointsClusterIP env svc lbEps true sp =
          [Op.createLoadBalancerVIPs lb [svc.clusterIP] sp.port lbEps.IPs
            lbEps.Port] := by
        unfold addEndpointsClusterIP
        rw [hlb]
        simp [hcip, hhs, hokf]
      refine ⟨?_, fun hc => absurd hc hok⟩
      rw [hport, hcl]
      simp
  · intro hnot hb
    subst hb
    have hhs : (hasHostEndpoints env.clusterSubnets lbEps.IPs &&
        decide (env.gatewayMode = GatewayMode.Shared)) = false := by
      by_cases hh : hasHostEndpoints env.clusterSubnets lbEps.IPs = true
      · have hm : ¬ env.gatewayMode = GatewayMode.Shared := fun hm =>
          hnot ⟨hh, hm⟩
        simp [hh, hm]
      · simp [Bool.eq_false_iff.mpr hh]
    have hcl : addEndpointsClusterIP env svc lbEps false sp =
        [] ++
        (if svc.externalIPs.length > 0 then
          [Op.createPerNodeVIPs (some svc.externalIPs) sp.protocol sp.port
            lbEps.IPs lbEps.Port]
         else []) ++
        svc.ingressIPs.flatMap (fun ing =>
          if ing == "" then []
          else [Op.createPerNodeVIPs (some [ing]) sp.protocol sp.port
            lbEps.IPs lbEps.Port]) := by
      unfold addEndpointsClusterIP
      rw [hlb]
      simp [hcip, hhs]
    intro l v p t2 tp hmem
    rw [hport, hcl] at hmem
    simp only [List.mem_append, List.mem_flatMap] at hmem
    rcases hmem with h | (h | h) | h
    · revert h
      split <;> simp
    · simp at h
    · revert h
      split <;> simp
    · rcases h with ⟨ing, -, h⟩
      revert h
      split <;> simp

/-- A ClusterIP service whose backend is host-networked. -/
def svcHost : Service :=
  ⟨"svc1", "10.96.0.1", .ClusterIP, [], [⟨"http", "TCP", 80, 0⟩], [], []⟩

/-- Endpoints for `svcHost`: one address outside the cluster range. -/
def epHost : Endpoints :=
  ⟨"svc1", "ns1", [⟨[⟨"172.16.0.5"⟩], [⟨"http", 8085, "TCP"⟩]⟩]⟩

/-- Witness for C1 (host-endpoint, shared-mode branch): the cluster-address
VIP goes to the per-node tier and the cluster-tier VIP is cleared. -/
theorem claim_C1_witness :
    Op.createPerNodeVIPs (some ["10.96.0.1"]) "TCP" 80 ["172.16.0.5"] 8085 ∈
      addEndpointsPort envBase svcHost (getLbEndpoints epHost) false
        ⟨"http", "TCP", 80, 0⟩ ∧
    Op.deleteLoadBalancerVIP "clusterLB" (joinHostPortInt32 "10.96.0.1" 80) ∈
      addEndpointsPort envBase svcHost (getLbEndpoints epHost) false
        ⟨"http", "TCP", 80, 0⟩ := by
  have h := (claim_C1_placementExclusivity envBase svcHost
    (getLbEndpoints epHost) false ⟨"http", "TCP", 80, 0⟩
    ⟨["172.16.0.5"], 8085⟩ "clusterLB" (by decide) (by decide) (by decide)
    rfl rfl).1 ⟨by decide, rfl⟩
  exact ⟨h.1, h.2.1 (by decide)⟩

/-! ### C4 — NodePort failure handling on the Add path (corrected) -/

/-- A NodePort service with two ports. -/
def svcNP : Service :=
  ⟨"svc4", "10.96.0.4", .NodePort, [],
    [⟨"a", "TCP", 80, 30080⟩, ⟨"b", "TCP", 81, 30081⟩], [], []⟩

/-- Endpoints backing both ports of `svcNP` with one cluster address. -/
def epNP : Endpoints :=
  ⟨"svc4", "ns1",
    [⟨[⟨"10.128.0.5"⟩], [⟨"a", 8080, "TCP"⟩, ⟨"b", 8081, "TCP"⟩]⟩]⟩

/-- Environment in which exactly the per-node NodePort create for node-port
30080 (port "a") fails. -/
def envNPFail : Env :=
  { envBase with
    getService := fun _ _ => some svcNP
    createPerNodeVIPsOk := fun vips _ srcPort _ _ =>
      !(vips.isNone && srcPort == 30080) }

/-- Counterexample to C4 as stated: when the NodePort create for port "a"
fails, the ClusterIP placement for that same port does NOT proceed (no
cluster-tier create for port 80 appears in the trace), even though the
caller requested cluster-tier placement; only the other port "b" gets its
ClusterIP placement. -/
theorem claim_C4_counterexample :
    Op.createPerNodeVIPs none "TCP" 30080 ["10.128.0.5"] 8080 ∈
      (AddEndpoints envNPFail epNP true).1 ∧
    envNPFail.createPerNodeVIPsOk none "TCP" 30080 ["10.128.0.5"] 8080
      = false ∧
    Op.createLoadBalancerVIPs "clusterLB" ["10.96.0.4"] 80 ["10.128.0.5"]
      8080 ∉ (AddEndpoints envNPFail epNP true).1 ∧
    Op.createLoadBalancerVIPs "clusterLB" ["10.96.0.4"] 81 ["10.128.0.5"]
      8081 ∈ (AddEndpoints envNPFail epNP true).1 := by
  refine ⟨?_, rfl, ?_, ?_⟩ <;> decide

/-- C4 amended: when the per-node NodePort create fails for one service
port, that port's whole placement for this pass is just the one attempted
(and failed) NodePort create — its ClusterIP, external-IP and ingress steps
are skipped too — while every other port's operations still reach the
service trace. -/
theorem claim_C4_nodePortFailure (env : Env) (svc : Service) (tbl : Tbl)
    (b : Bool) (sp : ServicePort) (lbEps : lbEndpoints)
    (hfound : tblLookup tbl sp.protocol sp.name = some lbEps)
    (hsctp : (!env.sctpSupport && sp.protocol == "SCTP") = false)
    (hnpType : serviceTypeHasNodePort svc.serviceType = true)
    (hfail : env.createPerNodeVIPsOk none sp.protocol sp.nodePort lbEps.IPs
      lbEps.Port = false) :
    addEndpointsPort env svc tbl b sp =
      [Op.createPerNodeVIPs none sp.protocol sp.nodePort lbEps.IPs
        lbEps.Port] ∧
    (∀ (ports : List ServicePort) (sp2 : ServicePort), sp2 ∈ ports →
      ∀ o ∈ addEndpointsPort env svc tbl b sp2,
        o ∈ ports.flatMap (addEndpointsPort env svc tbl b)) := by
  constructor
  · unfold addEndpointsPort
    rw [hfound]
    simp [hsctp, hnpType, hfail]
  · intro ports sp2 hsp2 o ho
    exact List.mem_flatMap.mpr ⟨sp2, hsp2, ho⟩

/-- Witness for C4's amended theorem at the concrete failing input: port
"a"'s entire trace is the single failed NodePort create. -/
theorem claim_C4_witness :
    addEndpointsPort envNPFail svcNP (getLbEndpoints epNP) true
        ⟨"a", "TCP", 80, 30080⟩ =
      [Op.createPerNodeVIPs none "TCP" 30080 ["10.128.0.5"] 8080] :=
  (claim_C4_nodePortFailure envNPFail svcNP (getLbEndpoints epNP) true
    ⟨"a", "TCP", 80, 30080⟩ ⟨["10.128.0.5"], 8080⟩ (by decide) (by decide)
    rfl (by decide)).1

/-! ### C2 — delete-path clusterIP clears (corrected) -/

/-- A plain ClusterIP service. -/
def svcCIP2 : Service :=
  ⟨"svc2", "10.96.0.2", .ClusterIP, [], [⟨"http", "TCP", 80, 0⟩], [], []⟩

/-- Its endpoints object. -/
def epCIP2 : Endpoints := ⟨"svc2", "ns1", []⟩

/-- Local gateway mode environment resolving to `svcCIP2`. -/
def envLocal : Env :=
  { envBase with
      getService := fun _ _ => some svcCIP2
      gatewayMode := .Local }

/-- Counterexample to C2 as stated: in local gateway mode the delete path
clears only the cluster tier — no gateway-tier or worker-tier clear of the
(cluster address, port) VIP is issued, so the clears are not mode
independent. -/
theorem claim_C2_counterexample :
    (deleteEndpoints envLocal epCIP2).1 =
      [Op.deleteFromIdlingBalancer "svc2",
       Op.configureLoadBalancer "clusterLB" "10.96.0.2" 80 none] ∧
    Op.configureLoadBalancer "gwLB" "10.96.0.2" 80 none ∉
      (deleteEndpoints envLocal epCIP2).1 ∧
    Op.configureLoadBalancer "workerLB" "10.96.0.2" 80 none ∉
      (deleteEndpoints envLocal epCIP2).1 := by
  refine ⟨?_, ?_, ?_⟩ <;> decide

/-- C2 amended: for every service port of the resolved non-idled service
(with the cluster load balancer resolved), the delete path clears the
(cluster address, service port) VIP on the cluster tier regardless of
gateway mode; the gateway-tier and worker-tier clears of that VIP are
issued (for every gateway whose balancers resolve) only when the gateway
topology mode is shared. -/
theorem claim_C2_deleteClears (env : Env) (ep : Endpoints) (svc : Service)
    (sp : ServicePort) (lb : String)
    (hsvc : env.getService ep.nspace ep.name = some svc)
    (hcip : isClusterIPSet svc = true)
    (hidle : svcNeedsIdling env svc.annotations = false)
    (hsp : sp ∈ svc.ports)
    (hlb : env.getLoadBalancer sp.protocol = some lb) :
    Op.configureLoadBalancer lb svc.clusterIP sp.port none ∈
      (deleteEndpoints env ep).1 ∧
    (∀ gw ∈ env.getOvnGateways, ∀ gwLB,
      env.getGatewayLoadBalancer gw sp.protocol = some gwLB →
      env.gatewayMode = GatewayMode.Shared →
      Op.configureLoadBalancer gwLB svc.clusterIP sp.port none ∈
        (deleteEndpoints env ep).1 ∧
      (∀ wLB, env.getWorkerLoadBalancer (env.getWorkerFromGatewayRouter gw)
          sp.protocol = some wLB →
        Op.configureLoadBalancer wLB svc.clusterIP sp.port none ∈
          (deleteEndpoints env ep).1)) := by
  have htr : (deleteEndpoints env ep).1 =
      Op.deleteFromIdlingBalancer svc.name ::
        svc.ports.flatMap (deleteEndpointsPort env svc env.getOvnGateways) := by
    unfold deleteEndpoints
    rw [hsvc]
    simp [hcip, hidle]
  have hppOps : ∀ o, o ∈ deleteEndpointsPort env svc env.getOvnGateways sp →
      o ∈ (deleteEndpoints env ep).1 := by
    intro o ho
    rw [htr]
    exact List.mem_cons_of_mem _ (List.mem_flatMap.mpr ⟨sp, hsp, ho⟩)
  have hpp : deleteEndpointsPort env svc env.getOvnGateways sp =
      Op.configureLoadBalancer lb svc.clusterIP sp.port none ::
        env.getOvnGateways.flatMap (deleteEndpointsGateway env svc sp) := by
    unfold deleteEndpointsPort
    rw [hlb]
  constructor
  · exact hppOps _ (by rw [hpp]; exact List.mem_cons_self _ _)
  · intro gw hgw gwLB hgwlb hmode
    have hgwOps : ∀ o, o ∈ deleteEndpointsGateway env svc sp gw →
        o ∈ (deleteEndpoints env ep).1 := by
      intro o ho
      refine hppOps o ?_
      rw [hpp]
      exact List.mem_cons_of_mem _ (List.mem_flatMap.mpr ⟨gw, hgw, ho⟩)
    constructor
    · refine hgwOps _ ?_
      unfold deleteEndpointsGateway
      rw [hgwlb]
      cases hw : env.getWorkerLoadBalancer (env.getWorkerFromGatewayRouter gw)
          sp.protocol with
      | none => simp [hmode]
      | some w =>
        by_cases hnp : serviceTypeHasNodePort svc.serviceType = true
        · cases hp : env.getGatewayPhysicalIPs gw with
          | none => simp [hmode, hnp, hp]
          | some pips => simp [hmode, hnp, hp]
        · simp [hmode, hnp]
    · intro wLB hwlb
      refine hgwOps _ ?_
      unfold deleteEndpointsGateway
      rw [hgwlb, hwlb]
      by_cases hnp : serviceTypeHasNodePort svc.serviceType = true
      · cases hp : env.getGatewayPhysicalIPs gw with
        | none => simp [hmode, hnp, hp]
        | some pips => simp [hmode, hnp, hp]
      · simp [hmode, hnp]

/-- Shared-mode environment resolving to `svcCIP2`. -/
def envCIP2 : Env := { envBase with getService := fun _ _ => some svcCIP2 }

/-- Witness for C2's amended theorem: in shared mode all three clears of the
(cluster address, port) VIP appear in the delete trace. -/
theorem claim_C2_witness :
    Op.configureLoadBalancer "clusterLB" "10.96.0.2" 80 none ∈
      (deleteEndpoints envCIP2 epCIP2).1 ∧
    Op.configureLoadBalancer "gwLB" "10.96.0.2" 80 none ∈
      (deleteEndpoints envCIP2 epCIP2).1 ∧
    Op.configureLoadBalancer "workerLB" "10.96.0.2" 80 none ∈
      (deleteEndpoints envCIP2 epCIP2).1 := by
  have h := claim_C2_deleteClears envCIP2 epCIP2 svcCIP2
    ⟨"http", "TCP", 80, 0⟩ "clusterLB" rfl rfl (by decide) (by decide) rfl
  have h2 := h.2 "GR_node1" (by decide) "gwLB" rfl rfl
  exact ⟨h.1, h2.1, h2.2 "workerLB" rfl⟩

/-! ### C3 — delete-path external-IP clears (code bug) -/

/-- A ClusterIP service declaring one external IP, exposed on port 80 with
no node port. -/
def svcExt : Service :=
  ⟨"svc3", "10.96.0.3", .ClusterIP, [], [⟨"http", "TCP", 80, 0⟩],
    ["192.0.2.10"], []⟩

/-- Its endpoints object. -/
def epExt : Endpoints := ⟨"svc3", "ns1", []⟩

/-- Environment resolving to `svcExt`. -/
def envExt : Env := { envBase with getService := fun _ _ => some svcExt }

/-- C3's divergence, evaluated: on delete, the gateway-tier external-IP
clear targets (external IP, service port 80), but the worker-tier clear
targets (external IP, node port 0) — line 290 of the source passes
`svcPort.NodePort` — so the worker-tier VIP at (external IP, 80) that the
Add path created is never cleared. -/
theorem claim_C3_externalIPDelete :
    Op.configureLoadBalancer "gwLB" "192.0.2.10" 80 none ∈
      (deleteEndpoints envExt epExt).1 ∧
    Op.configureLoadBalancer "workerLB" "192.0.2.10" 0 none ∈
      (deleteEndpoints envExt epExt).1 ∧
    Op.configureLoadBalancer "workerLB" "192.0.2.10" 80 none ∉
      (deleteEndpoints envExt epExt).1 := by
  refine ⟨?_, ?_, ?_⟩ <;> decide

/-! ### Helper lemmas for the bootstrap claims -/

theorem handleEndpointsList_cons
    (addFn : Endpoints → Bool → List Op × Option String) (node : String)
    (e : Endpoints) (rest : List Endpoints) :
    handleEndpointsList addFn node (e :: rest) =
      match (addFn e false).2 with
      | some err =>
        (Op.callAddEndpoints e.name false :: (addFn e false).1,
          some ("unable to handle adding endpoints for new node: " ++ node ++
            ", error: " ++ err))
      | none =>
        (Op.callAddEndpoints e.name false :: (addFn e false).1 ++
            (handleEndpointsList addFn node rest).1,
          (handleEndpointsList addFn node rest).2) := by
  rfl

theorem handleNamespacesList_cons (env : Env)
    (addFn : Endpoints → Bool → List Op × Option String) (node : String)
    (n : String) (rest : List String) :
    handleNamespacesList env addFn node (n :: rest) =
      match env.getEndpoints n with
      | none => handleNamespacesList env addFn node rest
      | some eps =>
        match (handleEndpointsList addFn node eps).2 with
        | some err => ((handleEndpointsList addFn node eps).1, some err)
        | none =>
          ((handleEndpointsList addFn node eps).1 ++
              (handleNamespacesList env addFn node rest).1,
            (handleNamespacesList env addFn node rest).2) := by
  rfl

theorem no_callAdd_addEndpointsClusterIP (env : Env) (svc : Service)
    (lbEps : lbEndpoints) (b : Bool) (sp : ServicePort) (e : String)
    (bb : Bool) :
    Op.callAddEndpoints e bb ∉ addEndpointsClusterIP env svc lbEps b sp := by
  unfold addEndpointsClusterIP
  split
  · split
    · simp
    · rename_i lb hlb
      by_cases hh : (hasHostEndpoints env.clusterSubnets lbEps.IPs &&
          decide (env.gatewayMode = GatewayMode.Shared)) = true
      · by_cases hok : env.createPerNodeVIPsOk (some [svc.clusterIP])
            sp.protocol sp.port lbEps.IPs lbEps.Port = true
        · simp [hh, hok, List.mem_append, List.mem_flatMap,
            List.mem_ite_nil_left, List.mem_ite_nil_right]
        · simp [hh, Bool.eq_false_iff.mpr hok]
      · have hh' := Bool.eq_false_iff.mpr hh
        cases b with
        | true =>
          by_cases hok : env.createLoadBalancerVIPsOk lb [svc.clusterIP]
              sp.port lbEps.IPs lbEps.Port = true
          · simp [hh', hok, List.mem_append, List.mem_flatMap,
              List.mem_ite_nil_left, List.mem_ite_nil_right]
          · simp [hh', Bool.eq_false_iff.mpr hok]
        | false =>
          simp [hh', List.mem_append, List.mem_flatMap,
            List.mem_ite_nil_left, List.mem_ite_nil_right]
  · simp

theorem no_callAdd_addEndpointsPort (env : Env) (svc : Service) (tbl : Tbl)
    (b : Bool) (sp : ServicePort) (e : String) (bb : Bool) :
    Op.callAddEndpoints e bb ∉ addEndpointsPort env svc tbl b sp := by
  cases hf : tblLookup tbl sp.protocol sp.name with
  | none =>
    have h0 : addEndpointsPort env svc tbl b sp = [] := by
      unfold addEndpointsPort
      rw [hf]
    simp [h0]
  | some lbEps =>
    by_cases hs : (!env.sctpSupport && sp.protocol == "SCTP") = true
    · have h0 : addEndpointsPort env svc tbl b sp = [] := by
        unfold addEndpointsPort
        rw [hf]
        simp [hs]
      simp [h0]
    · have hs' : (!env.sctpSupport && sp.protocol == "SCTP") = false :=
        Bool.eq_false_iff.mpr hs
      by_cases hnf : (serviceTypeHasNodePort svc.serviceType &&
          !env.createPerNodeVIPsOk none sp.protocol sp.nodePort lbEps.IPs
            lbEps.Port) = true
      · have hnp : serviceTypeHasNodePort svc.serviceType = true :=
          (Bool.and_eq_true .. |>.mp hnf).1
        have hfail : env.createPerNodeVIPsOk none sp.protocol sp.nodePort
            lbEps.IPs lbEps.Port = false := by
          have h2 := (Bool.and_eq_true .. |>.mp hnf).2
          rwa [Bool.not_eq_true'] at h2
        have h0 : addEndpointsPort env svc tbl b sp =
            [Op.createPerNodeVIPs none sp.protocol sp.nodePort lbEps.IPs
              lbEps.Port] := by
          unfold addEndpointsPort
          rw [hf]
          simp [hs', hnp, hfail]
        simp [h0]
      · have hnf' : (serviceTypeHasNodePort svc.serviceType &&
            !env.createPerNodeVIPsOk none sp.protocol sp.nodePort lbEps.IPs
              lbEps.Port) = false := Bool.eq_false_iff.mpr hnf
        have h0 : addEndpointsPort env svc tbl b sp =
            (if serviceTypeHasNodePort svc.serviceType then
              [Op.createPerNodeVIPs none sp.protocol sp.nodePort lbEps.IPs
                lbEps.Port]
             else []) ++ addEndpointsClusterIP env svc lbEps b sp := by
          unfold addEndpointsPort
          rw [hf]
          simp only [hs', Bool.false_eq_true, if_false, hnf']
        rw [h0]
        intro h
        rcases List.mem_append.mp h with h1 | h1
        · revert h1
          split <;> simp
        · exact no_callAdd_addEndpointsClusterIP env svc lbEps b sp e bb h1

theorem no_callAdd_AddEndpoints (env : Env) (ep : Endpoints) (b : Bool)
    (e : String) (bb : Bool) :
    Op.callAddEndpoints e bb ∉ (AddEndpoints env ep b).1 := by
  cases hsvc : env.getService ep.nspace ep.name with
  | none =>
    have h0 : AddEndpoints env ep b = ([], none) := by
      unfold AddEndpoints
      rw [hsvc]
    simp [h0]
  | some svc =>
    by_cases hc : isClusterIPSet svc = true
    · by_cases hi : (svcNeedsIdling env svc.annotations &&
          ep.subsets.isEmpty) = true
      · have h0 : AddEndpoints env ep b =
            ([Op.addToIdlingBalancer svc.name,
              Op.deleteFromBalancers svc.name], none) := by
          unfold AddEndpoints
          rw [hsvc]
          simp [hc, hi]
        simp [h0]
      · have hi' := Bool.eq_false_iff.mpr hi
        have h0 : AddEndpoints env ep b =
            (Op.deleteFromIdlingBalancer svc.name ::
              svc.ports.flatMap
                (addEndpointsPort env svc (getLbEndpoints ep) b), none) := by
          unfold AddEndpoints
          rw [hsvc]
          simp [hc, hi']
        rw [h0]
        intro h
        rcases List.mem_cons.mp h with h1 | h1
        · exact Op.noConfusion h1
        · rcases List.mem_flatMap.mp h1 with ⟨sp, -, h2⟩
          exact no_callAdd_addEndpointsPort env svc _ b sp e bb h2
    · have hc' := Bool.eq_false_iff.mpr hc
      have h0 : AddEndpoints env ep b = ([], none) := by
        unfold AddEndpoints
        rw [hsvc]
        simp [hc']
      simp [h0]

theorem AddEndpoints_snd_none (env : Env) (ep : Endpoints) (b : Bool) :
    (AddEndpoints env ep b).2 = none := by
  unfold AddEndpoints
  split
  · rfl
  · split
    · rfl
    · split <;> rfl

theorem deleteEndpoints_snd_none (env : Env) (ep : Endpoints) :
    (deleteEndpoints env ep).2 = none := by
  unfold deleteEndpoints
  split
  · rfl
  · split
    · rfl
    · split <;> rfl

theorem handleEndpointsList_snd_none
    (addFn : Endpoints → Bool → List Op × Option String) (node : String)
    (eps : List Endpoints) (h : ∀ ep, (addFn ep false).2 = none) :
    (handleEndpointsList addFn node eps).2 = none := by
  induction eps with
  | nil => rfl
  | cons e rest ih =>
    rw [handleEndpointsList_cons, h e]
    exact ih

theorem handleNamespacesList_snd_none (env : Env)
    (addFn : Endpoints → Bool → List Op × Option String) (node : String)
    (nss : List String) (h : ∀ ep, (addFn ep false).2 = none) :
    (handleNamespacesList env addFn node nss).2 = none := by
  induction nss with
  | nil => rfl
  | cons n rest ih =>
    rw [handleNamespacesList_cons]
    cases hn : env.getEndpoints n with
    | none => exact ih
    | some eps =>
      simp only []
      rw [handleEndpointsList_snd_none addFn node eps h]
      exact ih

theorem mem_callAdd_handleEndpointsList
    (addFn : Endpoints → Bool → List Op × Option String) (node : String)
    (eps : List Endpoints) (ep : Endpoints)
    (h : ∀ e2, (addFn e2 false).2 = none) (hep : ep ∈ eps) :
    Op.callAddEndpoints ep.name false ∈
      (handleEndpointsList addFn node eps).1 := by
  induction eps with
  | nil => cases hep
  | cons e rest ih =>
    rw [handleEndpointsList_cons, h e]
    rcases List.mem_cons.mp hep with he | he
    · subst he
      exact List.mem_cons_self _ _
    · exact List.mem_cons_of_mem _
        (List.mem_append.mpr (Or.inr (ih he)))

theorem mem_callAdd_handleNamespacesList (env : Env)
    (addFn : Endpoints → Bool → List Op × Option String) (node : String)
    (nss : List String) (ns : String) (eps : List Endpoints) (ep : Endpoints)
    (h : ∀ e2, (addFn e2 false).2 = none) (hns : ns ∈ nss)
    (hge : env.getEndpoints ns = some eps) (hep : ep ∈ eps) :
    Op.callAddEndpoints ep.name false ∈
      (handleNamespacesList env addFn node nss).1 := by
  induction nss with
  | nil => cases hns
  | cons n rest ih =>
    rw [handleNamespacesList_cons]
    rcases List.mem_cons.mp hns with he | he
    · subst he
      rw [hge]
      simp only []
      rw [handleEndpointsList_snd_none addFn node eps h]
      exact List.mem_append.mpr
        (Or.inl (mem_callAdd_handleEndpointsList addFn node eps ep h hep))
    · cases hn : env.getEndpoints n with
      | none => exact ih he
      | some eps2 =>
        simp only []
        rw [handleEndpointsList_snd_none addFn node eps2 h]
        exact List.mem_append.mpr (Or.inr (ih he))

theorem callAdd_flag_handleEndpointsList
    (addFn : Endpoints → Bool → List Op × Option String) (node : String)
    (eps : List Endpoints)
    (hno : ∀ e2 e bb, Op.callAddEndpoints e bb ∈ (addFn e2 false).1 →
      bb = false) :
    ∀ e bb, Op.callAddEndpoints e bb ∈ (handleEndpointsList addFn node eps).1 →
      bb = false := by
  induction eps with
  | nil => intro e bb h; cases h
  | cons e2 rest ih =>
    intro e bb h
    rw [handleEndpointsList_cons] at h
    revert h
    cases hr : (addFn e2 false).2 with
    | some err =>
      intro h
      rcases List.mem_cons.mp h with h1 | h1
      · exact (Op.callAddEndpoints.injEq .. |>.mp h1).2
      · exact hno e2 e bb h1
    | none =>
      intro h
      rcases List.mem_cons.mp h with h1 | h1
      · exact (Op.callAddEndpoints.injEq .. |>.mp h1).2
      · rcases List.mem_append.mp h1 with h2 | h2
        · exact hno e2 e bb h2
        · exact ih e bb h2

theorem callAdd_flag_handleNamespacesList (env : Env)
    (addFn : Endpoints → Bool → List Op × Option String) (node : String)
    (nss : List String)
    (hno : ∀ e2 e bb, Op.callAddEndpoints e bb ∈ (addFn e2 false).1 →
      bb = false) :
    ∀ e bb,
      Op.callAddEndpoints e bb ∈ (handleNamespacesList env addFn node nss).1 →
      bb = false := by
  induction nss with
  | nil => intro e bb h; cases h
  | cons n rest ih =>
    intro e bb h
    rw [handleNamespacesList_cons] at h
    revert h
    cases hn : env.getEndpoints n with
    | none => exact ih e bb
    | some eps =>
      simp only []
      cases hr : (handleEndpointsList addFn node eps).2 with
      | some err =>
        intro h
        exact callAdd_flag_handleEndpointsList addFn node eps hno e bb h
      | none =>
        intro h
        rcases List.mem_append.mp h with h1 | h1
        · exact callAdd_flag_handleEndpointsList addFn node eps hno e bb h1
        · exact ih e bb h1

theorem handleEndpointsList_snd_ne_none
    (addFn : Endpoints → Bool → List Op × Option String) (node : String)
    (eps : List Endpoints) (ep : Endpoints) (hep : ep ∈ eps)
    (hfail : (addFn ep false).2 ≠ none) :
    (handleEndpointsList addFn node eps).2 ≠ none := by
  induction eps with
  | nil => cases hep
  | cons e rest ih =>
    rw [handleEndpointsList_cons]
    cases hr : (addFn e false).2 with
    | some err => simp
    | none =>
      rcases List.mem_cons.mp hep with he | he
      · exact absurd hr (he ▸ hfail)
      · exact ih he

theorem handleNamespacesList_snd_ne_none (env : Env)
    (addFn : Endpoints → Bool → List Op × Option String) (node : String)
    (nss : List String) (ns : String) (eps : List Endpoints) (ep : Endpoints)
    (hns : ns ∈ nss) (hge : env.getEndpoints ns = some eps) (hep : ep ∈ eps)
    (hfail : (addFn ep false).2 ≠ none) :
    (handleNamespacesList env addFn node nss).2 ≠ none := by
  induction nss with
  | nil => cases hns
  | cons n rest ih =>
    rw [handleNamespacesList_cons]
    cases hn : env.getEndpoints n with
    | none =>
      rcases List.mem_cons.mp hns with he | he
      · rw [he] at hge
        rw [hge] at hn
        cases hn
      · exact ih he
    | some eps2 =>
      simp only []
      cases hr : (handleEndpointsList addFn node eps2).2 with
      | some err => simp
      | none =>
        rcases List.mem_cons.mp hns with he | he
        · rw [he] at hge
          rw [hge] at hn
          cases hn
          exact absurd hr
            (handleEndpointsList_snd_ne_none addFn node eps ep hep hfail)
        · exact ih he

/-- The OCP physical-IP guard at the top of `handleNodePortLB` passes when
the gateway interface is none or the physical IPs resolve. -/
theorem physGuard_false (env : Env) (node : String)
    (hphys : env.gatewayInterfaceNone = true ∨
      (env.getGatewayPhysicalIPs (gwRouterNameHead ++ node)).isSome) :
    (!env.gatewayInterfaceNone &&
      (env.getGatewayPhysicalIPs (gwRouterNameHead ++ node)).isNone) = false := by
  rcases hphys with h1 | h2
  · simp [h1]
  · rcases Option.isSome_iff_exists.mp h2 with ⟨v, hv⟩
    simp [hv]

/-! ### C9 — node bootstrap behaviour -/

/-- C9: when the full-service-sync controller is present, `handleNodePortLB`
issues exactly one full-sync request and returns its result; in legacy mode
every `AddEndpoints` invocation it makes carries `addClusterLBs = false`
(and one such invocation is made for every Endpoints object of every
listable namespace); and — generically in the invoked add function, as the
source structure prescribes — a non-nil error from any single invocation
makes the whole bootstrap return an error. -/
theorem claim_C9_nodeBootstrap (env : Env) (node : String)
    (hphys : env.gatewayInterfaceNone = true ∨
      (env.getGatewayPhysicalIPs (gwRouterNameHead ++ node)).isSome) :
    (env.svcControllerOn = true →
      handleNodePortLB env node =
        ([Op.requestFullSync], env.requestFullSyncRes)) ∧
    (env.svcControllerOn = false →
      (∀ e bb, Op.callAddEndpoints e bb ∈ (handleNodePortLB env node).1 →
        bb = false) ∧
      (∀ nss, env.getNamespaces = some nss → ∀ ns ∈ nss, ∀ eps,
        env.getEndpoints ns = some eps → ∀ ep ∈ eps,
        Op.callAddEndpoints ep.name false ∈ (handleNodePortLB env node).1)) ∧
    (∀ (addFn : Endpoints → Bool → List Op × Option String)
        (nss : List String) (ns : String) (eps : List Endpoints)
        (ep : Endpoints),
      env.svcControllerOn = false → env.getNamespaces = some nss →
      ns ∈ nss → env.getEndpoints ns = some eps → ep ∈ eps →
      (addFn ep false).2 ≠ none →
      (handleNodePortLBWith env addFn node).2 ≠ none) := by
  have hg := physGuard_false env node hphys
  refine ⟨?_, ?_, ?_⟩
  · intro hsc
    unfold handleNodePortLB handleNodePortLBWith
    simp [hg, hsc]
  · intro hsc
    have htrace : handleNodePortLB env node =
        match env.getNamespaces with
        | none => ([], some "failed to get k8s namespaces")
        | some nss =>
          handleNamespacesList env (fun e2 b2 => AddEndpoints env e2 b2)
            node nss := by
      unfold handleNodePortLB handleNodePortLBWith
      simp [hg, hsc]
    constructor
    · intro e bb hmem
      rw [htrace] at hmem
      revert hmem
      cases hns : env.getNamespaces with
      | none =>
        intro hmem
        exact (List.not_mem_nil _ hmem).elim
      | some nss =>
        intro hmem
        exact callAdd_flag_handleNamespacesList env _ node nss
          (fun e2 e' bb' h' =>
            absurd h' (no_callAdd_AddEndpoints env e2 false e' bb'))
          e bb hmem
    · intro nss hns ns hnsmem eps hge ep hep
      rw [htrace, hns]
      exact mem_callAdd_handleNamespacesList env _ node nss ns eps ep
        (fun e2 => AddEndpoints_snd_none env e2 false) hnsmem hge hep
  · intro addFn nss ns eps ep hsc hns hnsmem hge hep hfail
    have htr : handleNodePortLBWith env addFn node =
        handleNamespacesList env addFn node nss := by
      unfold handleNodePortLBWith
      simp [hg, hsc, hns]
    rw [htr]
    exact handleNamespacesList_snd_ne_none env addFn node nss ns eps ep
      hnsmem hge hep hfail

/-- A bare endpoints object for bootstrap fixtures. -/
def epW : Endpoints := ⟨"epw", "ns1", []⟩

/-- Legacy-mode environment with one namespace holding one Endpoints
object. -/
def envC9 : Env :=
  { envBase with
      getNamespaces := some ["ns1"]
      getEndpoints := fun _ => some [epW] }

/-- Witness for C9: an add function failing on the single Endpoints object
makes the legacy bootstrap return an error. -/
theorem claim_C9_witness :
    (handleNodePortLBWith envC9 (fun _ _ => ([], some "boom")) "node1").2 ≠
      none :=
  (claim_C9_nodeBootstrap envC9 "node1" (Or.inl rfl)).2.2
    (fun _ _ => ([], some "boom")) ["ns1"] "ns1" [epW] epW rfl rfl
    (by decide) rfl (by decide) (by simp)

/-! ### C10 — implicit: Add/Delete never return an error -/

/-- C10: `AddEndpoints` and `deleteEndpoints` return nil on every input —
every backend or lookup failure is logged and skipped — so the legacy
bootstrap's abort branch is dead: once past its physical-IP guard, in
legacy mode with a listable namespace set, `handleNodePortLB` returns nil
regardless of per-namespace Endpoints-listing failures (those namespaces
are skipped). -/
theorem claim_C10_neverError (env : Env) (ep : Endpoints) (b : Bool)
    (node : String) :
    (AddEndpoints env ep b).2 = none ∧
    (deleteEndpoints env ep).2 = none ∧
    ((env.gatewayInterfaceNone = true ∨
        (env.getGatewayPhysicalIPs (gwRouterNameHead ++ node)).isSome) →
      env.svcControllerOn = false →
      ∀ nss, env.getNamespaces = some nss →
      (handleNodePortLB env node).2 = none) := by
  refine ⟨AddEndpoints_snd_none env ep b, deleteEndpoints_snd_none env ep, ?_⟩
  intro hphys hsc nss hns
  have htr : handleNodePortLB env node =
      handleNamespacesList env (fun e2 b2 => AddEndpoints env e2 b2)
        node nss := by
    unfold handleNodePortLB handleNodePortLBWith
    simp [physGuard_false env node hphys, hsc, hns]
  rw [htr]
  exact handleNamespacesList_snd_none env _ node nss
    (fun e2 => AddEndpoints_snd_none env e2 false)

/-- Legacy-mode environment where listing Endpoints fails for namespace
"nsA" but succeeds for "nsB". -/
def envC10 : Env :=
  { envBase with
      getNamespaces := some ["nsA", "nsB"]
      getEndpoints := fun ns => if ns = "nsA" then none else some [epW] }

/-- Witness for C10: the bootstrap still returns nil despite the failing
namespace. -/
theorem claim_C10_witness :
    (handleNodePortLB envC10 "node1").2 = none :=
  (claim_C10_neverError envC10 epW true "node1").2.2 (Or.inl rfl) rfl
    ["nsA", "nsB"] rfl

end OvnEndpoints
